import Mathlib

set_option maxHeartbeats 1000000

/-!
A Lean model of the ESPN rugby statistics spider
(`scraper/rugby/spiders/espn.py`): the match-list crawl step, the headline
stage of the match-page parser, the player-name resolver, the tolerant
per-metric cell parsers and the scorer-summary accumulation, together with
theorems checking the specification's claims about them.

Text is modelled as `List Char`; Python string methods (`strip`, `split`,
`in`, `int(...)`) and the concrete `regex` patterns of the source are
translated into executable recursive functions.
-/

/-- Python `str.strip()`: drop whitespace from both ends. -/
def pyStrip (l : List Char) : List Char :=
  ((l.dropWhile Char.isWhitespace).reverse.dropWhile Char.isWhitespace).reverse

/-- Python `str.rstrip()`: drop trailing whitespace. -/
def pyRstrip (l : List Char) : List Char :=
  (l.reverse.dropWhile Char.isWhitespace).reverse

/-- Does the first list occur as a leading segment of the second list? -/
def startsWithChars : List Char → List Char → Bool
  | [], _ => true
  | _ :: _, [] => false
  | c :: cs, x :: xs => x = c && startsWithChars cs xs

/-- Python `needle in haystack` on strings: substring containment. -/
def containsChars (needle : List Char) : List Char → Bool
  | [] => startsWithChars needle []
  | c :: t => startsWithChars needle (c :: t) || containsChars needle t

/-- Python `str.split(" ")`: split on every single space, keeping empties. -/
def splitSp : List Char → List (List Char)
  | [] => [[]]
  | c :: r =>
    if c = ' ' then [] :: splitSp r
    else
      match splitSp r with
      | [] => [[c]]
      | t :: ts => (c :: t) :: ts

/-- Python `str.split(sep)` for a non-empty literal separator `s :: ss`,
fuelled by the input length so that it is structurally recursive. -/
def splitLitAux (s : Char) (ss : List Char) : Nat → List Char → List (List Char)
  | _, [] => [[]]
  | 0, l => [l]
  | fuel + 1, c :: r =>
    if startsWithChars (s :: ss) (c :: r) then [] :: splitLitAux s ss fuel (r.drop ss.length)
    else
      match splitLitAux s ss fuel r with
      | [] => [[c]]
      | t :: ts => (c :: t) :: ts

/-- The headline split `headlines.split(" - ")`. -/
def splitDash (l : List Char) : List (List Char) :=
  splitLitAux ' ' ['-', ' '] l.length l

/-- Value of one ASCII digit character. -/
def digitVal (c : Char) : Nat := c.toNat - '0'.toNat

/-- Value of a base-10 digit string. -/
def digitsVal (l : List Char) : Nat := l.foldl (fun a c => a * 10 + digitVal c) 0

/-- Digit body accepted by Python `int()` after sign removal: digits with
single underscores allowed between digit groups. -/
def intDigitsOk : List Char → Bool
  | [] => false
  | [c] => c.isDigit
  | c :: d :: rest =>
    c.isDigit &&
      (if d = '_' then
        match rest with
        | [] => false
        | _ :: _ => intDigitsOk rest
      else intDigitsOk (d :: rest))

/-- Python `int(text)`: strip whitespace, optional sign, digit body; `none`
models the `ValueError` raised on any other text. -/
def pyInt (l : List Char) : Option Int :=
  match pyStrip l with
  | '+' :: r =>
    if intDigitsOk r then some (Int.ofNat (digitsVal (r.filter (fun c => !(c = '_'))))) else none
  | '-' :: r =>
    if intDigitsOk r then some (-Int.ofNat (digitsVal (r.filter (fun c => !(c = '_'))))) else none
  | r =>
    if intDigitsOk r then some (Int.ofNat (digitsVal (r.filter (fun c => !(c = '_'))))) else none

/-- Consume an exact literal from the front of the text, returning the rest. -/
def dropLitChars : List Char → List Char → Option (List Char)
  | [], l => some l
  | _ :: _, [] => none
  | c :: cs, x :: xs => if x = c then dropLitChars cs xs else none

/-- Characters matched by the headline name pattern `[a-zA-Z ]`. -/
def letterSpace (c : Char) : Bool := c.isAlpha || c = ' '

/-- Maximal runs of characters satisfying `p`, as produced by
`regex.findall("([a-zA-Z ]+)", text)`; fuelled by the input length. -/
def runsOfAux (p : Char → Bool) : Nat → List Char → List (List Char)
  | 0, _ => []
  | _, [] => []
  | fuel + 1, c :: r =>
    if p c then (c :: r.takeWhile p) :: runsOfAux p fuel (r.dropWhile p)
    else runsOfAux p fuel r

def runsOf (p : Char → Bool) (l : List Char) : List (List Char) :=
  runsOfAux p l.length l

/-- Matches of `regex.findall("(\d+)(?!G)", text)`: maximal digit runs, with
the last digit given back when the run is followed by a literal `G` (the
engine backtracks one digit to satisfy the negative lookahead). -/
def scoreRunsAux : Nat → List Char → List (List Char)
  | 0, _ => []
  | _, [] => []
  | fuel + 1, c :: r =>
    if c.isDigit then
      match r.dropWhile Char.isDigit with
      | 'G' :: g =>
        (if 2 ≤ (c :: r.takeWhile Char.isDigit).length then
          [(c :: r.takeWhile Char.isDigit).dropLast]
        else []) ++ scoreRunsAux fuel g
      | rest => (c :: r.takeWhile Char.isDigit) :: scoreRunsAux fuel rest
    else scoreRunsAux fuel r

def scoreRuns (l : List Char) : List (List Char) :=
  scoreRunsAux l.length l

/-- The headline text assembly:
`"".join([item.rstrip().replace("\n", "") for item in tokens])`. -/
def joinTokens (tokens : List (List Char)) : List Char :=
  (tokens.map (fun t => (pyRstrip t).filter (fun c => !(c = '\n')))).flatten

/-- Uppercase and strip, as in `name.upper().strip()`. -/
def upStrip (l : List Char) : List Char := pyStrip (l.map Char.toUpper)

/-- Python `name.split(" ")[-1]`. -/
def lastTok (l : List Char) : List Char := (splitSp l).getLastD []

/-- Python `name.split(" ")[0]`. -/
def headTok (l : List Char) : List Char := (splitSp l).headD []

/-- A roster maps a player id to the display name observed in the line-up,
in insertion order (`team_dic` in the source, keeping only the name slot
of its value tuple). -/
def rosterNameOf (roster : List (String × List Char)) (pid : String) : List Char :=
  match roster.find? (fun p => p.1 = pid) with
  | some p => p.2
  | none => []

/-- The player identity resolver `_get_player_id_from_name`: candidates are
roster entries whose last name token contains the queried last token as a
substring; ties are broken by first letter of the first token plus exact
last token.  `none` models every `RuntimeError` raised by the source, which
all callers catch. -/
def resolveName (name0 : List Char) (roster : List (String × List Char)) : Option String :=
  let name := upStrip name0
  let researched := splitSp name
  let rLast := researched.getLastD []
  let potential := (roster.filter (fun p => containsChars rLast (lastTok (upStrip p.2)))).map
    (fun p => p.1)
  match potential with
  | [] => none
  | [p] => some p
  | p :: q :: rest =>
    if (q :: rest).all (fun x => x == p) then some p
    else if researched.length = 1 then none
    else
      let rFirstLetter := (headTok name).headD ' '
      let final := (p :: q :: rest).filter (fun pid =>
        let pn := upStrip (rosterNameOf roster pid)
        ((headTok pn).headD ' ' == rFirstLetter) && (lastTok pn == rLast))
      match final with
      | [f] => some f
      | [] => none
      | f :: rest2 => if rest2.all (fun x => x == f) then some f else none

/-- The `"Penalty goals"` pattern `[0-9]+ from ([0-9]+)`: second capture. -/
def pensFromParse (l : List Char) : Option Nat :=
  let d1 := l.takeWhile Char.isDigit
  let r1 := l.dropWhile Char.isDigit
  if d1 = [] then none
  else
    match dropLitChars " from ".toList r1 with
    | none => none
    | some r2 =>
      let d2 := r2.takeWhile Char.isDigit
      if d2 = [] then none else some (digitsVal d2)

/-- The `"Dropped goals"` pattern `([0-9]+)( \(([0-9]+) missed\))?`:
scored count plus the optional missed count. -/
def dropsParse (l : List Char) : Option (Nat × Option Nat) :=
  let d1 := l.takeWhile Char.isDigit
  let r1 := l.dropWhile Char.isDigit
  if d1 = [] then none
  else
    let m :=
      match dropLitChars " (".toList r1 with
      | none => none
      | some r2 =>
        let d3 := r2.takeWhile Char.isDigit
        let r3 := r2.dropWhile Char.isDigit
        if d3 = [] then none
        else
          match dropLitChars " missed)".toList r3 with
          | none => none
          | some _ => some (digitsVal d3)
    some (digitsVal d1, m)

/-- The rucks and mauls pattern `^\n([0-9]+) from ([0-9]+)`. -/
def nlFromParse (l : List Char) : Option (Nat × Nat) :=
  match l with
  | '\n' :: r =>
    let d1 := r.takeWhile Char.isDigit
    let r1 := r.dropWhile Char.isDigit
    if d1 = [] then none
    else
      match dropLitChars " from ".toList r1 with
      | none => none
      | some r2 =>
        let d2 := r2.takeWhile Char.isDigit
        if d2 = [] then none else some (digitsVal d1, digitsVal d2)
  | _ => none

/-- The scrums and lineouts pattern `^\n\t  ([0-9]+) won, ([0-9]+) lost`. -/
def wonLostParse (l : List Char) : Option (Nat × Nat) :=
  match dropLitChars ['\n', '\t', ' ', ' '] l with
  | none => none
  | some r =>
    let d1 := r.takeWhile Char.isDigit
    let r1 := r.dropWhile Char.isDigit
    if d1 = [] then none
    else
      match dropLitChars " won, ".toList r1 with
      | none => none
      | some r2 =>
        let d2 := r2.takeWhile Char.isDigit
        let r3 := r2.dropWhile Char.isDigit
        if d2 = [] then none
        else
          match dropLitChars " lost".toList r3 with
          | none => none
          | some _ => some (digitsVal d1, digitsVal d2)

/-- The fully anchored pattern `^([0-9]+)/([0-9]+)$`. -/
def slashBothParse (l : List Char) : Option (Nat × Nat) :=
  let d1 := l.takeWhile Char.isDigit
  let r1 := l.dropWhile Char.isDigit
  if d1 = [] then none
  else
    match r1 with
    | '/' :: r2 =>
      let d2 := r2.takeWhile Char.isDigit
      let r3 := r2.dropWhile Char.isDigit
      if d2 = [] then none
      else if r3 = [] then some (digitsVal d1, digitsVal d2) else none
    | _ => none

/-- The front-anchored pattern `^([0-9]+)/([0-9]+)` (trailing text ignored). -/
def slashStartParse (l : List Char) : Option (Nat × Nat) :=
  let d1 := l.takeWhile Char.isDigit
  let r1 := l.dropWhile Char.isDigit
  if d1 = [] then none
  else
    match r1 with
    | '/' :: r2 =>
      let d2 := r2.takeWhile Char.isDigit
      if d2 = [] then none else some (digitsVal d1, digitsVal d2)
    | _ => none

/-- The kicks, passes and runs pattern `^([0-9]+)/([0-9]+)/([0-9]+)$`. -/
def krpParse (l : List Char) : Option (Nat × Nat × Nat) :=
  let d1 := l.takeWhile Char.isDigit
  let r1 := l.dropWhile Char.isDigit
  if d1 = [] then none
  else
    match r1 with
    | '/' :: r2 =>
      let d2 := r2.takeWhile Char.isDigit
      let r3 := r2.dropWhile Char.isDigit
      if d2 = [] then none
      else
        match r3 with
        | '/' :: r4 =>
          let d3 := r4.takeWhile Char.isDigit
          let r5 := r4.dropWhile Char.isDigit
          if d3 = [] then none
          else if r5 = [] then some (digitsVal d1, digitsVal d2, digitsVal d3) else none
        | _ => none
    | _ => none

/-- The tries and assists pattern `^([0-9]+)/([0-9])+$` with
`captures(2)[0]`: the repeated single-digit group captures every digit of
the second field and the source reads the FIRST capture. -/
def triesAssistsParse (l : List Char) : Option (Nat × Nat) :=
  let d1 := l.takeWhile Char.isDigit
  let r1 := l.dropWhile Char.isDigit
  if d1 = [] then none
  else
    match r1 with
    | '/' :: rest =>
      if !rest.isEmpty && rest.all Char.isDigit then
        some (digitsVal d1, digitVal (rest.headD '0'))
      else none
    | _ => none

/-- The titles handled by the plain-`int(value)` branch of
`_parse_match_stats`, with their metric codes. -/
def simpleStatTitles : List String :=
  ["Kicks from hand", "Passes", "Runs", "Metres run with ball", "Clean breaks",
   "Defenders beaten", "Offloads", "Turnovers conceded", "Penalties conceded"]

/-- One plain-integer cell of the match-stats table: `int(value)` is
unguarded, so a failed conversion is an error, not a skipped metric. -/
def simpleCell (code : String) (value : List Char) : Except Unit (List (String × Int)) :=
  match pyInt value with
  | none => Except.error ()
  | some n => Except.ok [(code, n)]

/-- One `(title, value)` analysis of `_parse_match_stats` for a single team
column: the produced `(metric, value)` pairs in assignment order, with
`Except.error` modelling an exception escaping the generator. -/
def parseMatchStatCell (title : String) (value : List Char) : Except Unit (List (String × Int)) :=
  match title with
  | "Penalty goals" =>
    Except.ok (match pensFromParse value with
      | some y => [("pens_attempt", (y : Int))]
      | none => [])
  | "Dropped goals" =>
    Except.ok (match dropsParse value with
      | some (n, m) => [("drops_attempt", ((n + m.getD 0 : Nat) : Int))]
      | none => [])
  | "Kicks from hand" => simpleCell "kicks" value
  | "Passes" => simpleCell "passes" value
  | "Runs" => simpleCell "runs" value
  | "Metres run with ball" => simpleCell "meters" value
  | "Clean breaks" => simpleCell "breaks" value
  | "Defenders beaten" => simpleCell "def_beaten" value
  | "Offloads" => simpleCell "offloads" value
  | "Turnovers conceded" => simpleCell "turnovers" value
  | "Penalties conceded" => simpleCell "pens_conceded" value
  | "Rucks won" =>
    Except.ok (match nlFromParse value with
      | some (w, i) => [("rucks_init", (i : Int)), ("rucks_won", (w : Int))]
      | none => [])
  | "Mauls won" =>
    Except.ok (match nlFromParse value with
      | some (w, i) => [("mall_init", (i : Int)), ("mall_won", (w : Int))]
      | none => [])
  | "Tackles made/missed" =>
    Except.ok (match slashBothParse value with
      | some (a, b) => [("tackles_made", (a : Int)), ("tackles_missed", (b : Int))]
      | none => [])
  | "Scrums on own feed" =>
    Except.ok (match wonLostParse value with
      | some (a, b) => [("scrums_won_on_feed", (a : Int)), ("scrums_lost_on_feed", (b : Int))]
      | none => [])
  | "Lineouts on own throw" =>
    Except.ok (match wonLostParse value with
      | some (a, b) => [("lineouts_won_on_throw", (a : Int)), ("lineouts_lost_on_throw", (b : Int))]
      | none => [])
  | "Yellow/red cards" =>
    Except.ok (match slashBothParse value with
      | some (a, b) => [("yellow_cards", (a : Int)), ("red_cards", (b : Int))]
      | none => [])
  | _ => Except.ok []

/-- The text cells of one `_parse_player_stats` row, in table-column order;
`none` models an absent cell. -/
structure PlayerRow where
  name : Option (List Char)
  triesAssists : Option (List Char)
  points : Option (List Char)
  krp : Option (List Char)
  meters : Option (List Char)
  breaks : Option (List Char)
  defBeaten : Option (List Char)
  offloads : Option (List Char)
  turnovers : Option (List Char)
  tackles : Option (List Char)
  lineouts : Option (List Char)
  pensConceded : Option (List Char)
  cards : Option (List Char)
deriving DecidableEq

/-- Python truthiness of an optional id string (`None` and `""` are falsy). -/
def truthy : Option String → Bool
  | none => false
  | some s => !(s = "")

/-- Pairs contributed by the tries/assists cell. -/
def statPairsOfTA (v : List Char) : List (String × Int) :=
  match triesAssistsParse v with
  | some (t, a) => [("tries", (t : Int)), ("assists", (a : Int))]
  | none => []

/-- Pairs contributed by the kicks/passes/runs cell. -/
def statPairsOfKRP (v : List Char) : List (String × Int) :=
  match krpParse v with
  | some (k, p, r) => [("kicks", (k : Int)), ("passes", (p : Int)), ("runs", (r : Int))]
  | none => []

/-- Pairs contributed by the tackles made/missed cell. -/
def statPairsOfTackles (v : List Char) : List (String × Int) :=
  match slashStartParse v with
  | some (a, b) => [("tackles_made", (a : Int)), ("tackles_missed", (b : Int))]
  | none => []

/-- Pairs contributed by the lineouts cell. -/
def statPairsOfLineouts (v : List Char) : List (String × Int) :=
  match slashBothParse v with
  | some (a, b) => [("lineouts_won_on_throw", (a : Int)), ("lineouts_stolen_from_opp", (b : Int))]
  | none => []

/-- Pairs contributed by the cards cell. -/
def statPairsOfCards (v : List Char) : List (String × Int) :=
  match slashStartParse v with
  | some (a, b) => [("yellow_cards", (a : Int)), ("red_cards", (b : Int))]
  | none => []

/-- A regex-guarded cell: a non-match adds nothing and never fails. -/
def cellRegex (l : List (String × Int)) (cell : Option (List Char))
    (f : List Char → List (String × Int)) : List (String × Int) :=
  match cell with
  | none => l
  | some v => l ++ f v

/-- An unguarded `int(...)` cell: a present cell that is not an integer
raises (`Except.error`). -/
def cellInt (l : List (String × Int)) (key : String) (cell : Option (List Char)) :
    Except Unit (List (String × Int)) :=
  match cell with
  | none => Except.ok l
  | some v =>
    match pyInt v with
    | none => Except.error ()
    | some n => Except.ok (l ++ [(key, n)])

/-- Does this optional `int(...)` cell convert without raising? -/
def cellIntOk : Option (List Char) → Bool
  | none => true
  | some v => (pyInt v).isSome

/-- Do all seven unguarded integer cells of the row convert? -/
def intCellsOk (row : PlayerRow) : Bool :=
  cellIntOk row.points && cellIntOk row.meters && cellIntOk row.breaks &&
  cellIntOk row.defBeaten && cellIntOk row.offloads && cellIntOk row.turnovers &&
  cellIntOk row.pensConceded

/-- The statistic cells of `_parse_player_stats`, processed in source
order after team attribution has succeeded. -/
def buildPlayerCells (row : PlayerRow) : Except Unit (List (String × Int)) :=
  match cellInt (cellRegex [] row.triesAssists statPairsOfTA) "points" row.points with
  | Except.error e => Except.error e
  | Except.ok s2 =>
    match cellInt (cellRegex s2 row.krp statPairsOfKRP) "meters" row.meters with
    | Except.error e => Except.error e
    | Except.ok s4 =>
      match cellInt s4 "breaks" row.breaks with
      | Except.error e => Except.error e
      | Except.ok s5 =>
        match cellInt s5 "def_beaten" row.defBeaten with
        | Except.error e => Except.error e
        | Except.ok s6 =>
          match cellInt s6 "offloads" row.offloads with
          | Except.error e => Except.error e
          | Except.ok s7 =>
            match cellInt s7 "turnovers" row.turnovers with
            | Except.error e => Except.error e
            | Except.ok s8 =>
              match cellInt (cellRegex (cellRegex s8 row.tackles statPairsOfTackles)
                  row.lineouts statPairsOfLineouts) "pens_conceded" row.pensConceded with
              | Except.error e => Except.error e
              | Except.ok s11 =>
                Except.ok (cellRegex s11 row.cards statPairsOfCards)

/-- The whole of `_parse_player_stats`: resolve the row name against both
single-team rosters; exactly one success fixes the player and team ids,
otherwise the row is discarded (`Except.ok none`); then the cells are
parsed, with `Except.error` for an escaping `int()` exception. -/
def parsePlayerStatsRow (row : PlayerRow) (home away : List (String × List Char))
    (homeId awayId : String) : Except Unit (Option (String × String × List (String × Int))) :=
  match row.name with
  | none => Except.ok none
  | some nm =>
    let hid := resolveName nm home
    let aid := resolveName nm away
    if truthy aid && truthy hid then Except.ok none
    else if !(truthy aid || truthy hid) then Except.ok none
    else
      let pt := if truthy hid then (hid.getD "", homeId) else (aid.getD "", awayId)
      match buildPlayerCells row with
      | Except.error e => Except.error e
      | Except.ok stats => Except.ok (some (pt.1, pt.2, stats))

/-- Characters matched by the scorer-name class `[\w\-\' ]` (ASCII view of
`\w`). -/
def eventNameChar (c : Char) : Bool :=
  c.isAlphanum || c = '_' || c = '-' || c = Char.ofNat 39 || c = ' '

/-- The greedy name part `((?:[\w\-\' ](?!\d))+)` of the scorer-segment
pattern: each consumed character must not be followed by a digit. -/
def takeEventName : List Char → (List Char × List Char)
  | [] => ([], [])
  | [c] => if eventNameChar c then ([c], []) else ([], [c])
  | c :: d :: r =>
    if eventNameChar c && !d.isDigit then
      match takeEventName (d :: r) with
      | (nm, rest) => (c :: nm, rest)
    else ([], c :: d :: r)

/-- The minute-marker groups `(?:\((?:(\d+)[, ]*)*\))*` of the scorer
pattern, scanned character by character.  Inside a group, `cur` is the
number being read, `sepOk` records that a separator is currently legal and
`pend` holds the group's captures, which are committed only when the group
closes; a malformed group makes the whole starred expression stop with the
captures committed so far. -/
def timesAux : List Char → Option (Option Nat × Bool × List Nat) → List Nat → List Nat
  | [], _, acc => acc
  | c :: r, none, acc => if c = '(' then timesAux r (some (none, false, [])) acc else acc
  | c :: r, some (cur, sepOk, pend), acc =>
    if c = ')' then timesAux r none (acc ++ pend ++ cur.toList)
    else if c.isDigit then
      match cur with
      | some n => timesAux r (some (some (n * 10 + digitVal c), sepOk, pend)) acc
      | none => timesAux r (some (some (digitVal c), sepOk, pend)) acc
    else if c = ',' || c = ' ' then
      match cur with
      | some n => timesAux r (some (none, true, pend ++ [n])) acc
      | none => if sepOk then timesAux r (some (none, true, pend)) acc else acc
    else acc

def parenGroups (l : List Char) : List Nat := timesAux l none []

/-- One scorer segment matched against
`((?:[\w\-\' ](?!\d))+) *([\d])*(?:\((?:(\d+)[, ]*)*\))*`, returning the
name capture, the list of single-digit occurrence captures and the minute
markers; `none` models a failed `regex.match`. -/
def parseEvent (seg : List Char) : Option (List Char × List Char × List Nat) :=
  match takeEventName seg with
  | (nm, r1) =>
    if nm = [] then none
    else
      let r2 := r1.dropWhile (fun c => c = ' ')
      let occ := r2.takeWhile Char.isDigit
      let r3 := r2.dropWhile Char.isDigit
      some (nm, occ, parenGroups r3)

/-- The event-string split `regex.split("\,(?! \d)", data)`: break on each
comma not followed by a space and a digit. -/
def splitEv : List Char → List (List Char)
  | [] => [[]]
  | c :: r =>
    if c = ',' && !(match r with
        | d :: e :: _ => d = ' ' && e.isDigit
        | _ => false) then
      [] :: splitEv r
    else
      match splitEv r with
      | [] => [[c]]
      | t :: ts => (c :: t) :: ts

/-- Lines 653-692 of the source for one segment: parse, resolve the
stripped name (a failure leaves the `None` bucket key) and compute the
increment `max(len(occurences)+1, len(times))`; a segment that does not
match at all contributes nothing. -/
def processScoreSegment (roster : List (String × List Char)) (seg : List Char) :
    Option (Option String × Nat) :=
  match parseEvent seg with
  | none => none
  | some (nm, occ, times) =>
    some (resolveName (pyStrip nm) roster, max (occ.length + 1) times.length)

/-- `defaultdict` update: add to an existing key or append a new one. -/
def bump : List (Option String × Nat) → Option String → Nat → List (Option String × Nat)
  | [], k, v => [(k, v)]
  | (k0, v0) :: t, k, v => if k0 = k then (k0, v0 + v) :: t else (k0, v0) :: bump t k v

/-- Current total of a bucket (0 when absent). -/
def lookupTotal : List (Option String × Nat) → Option String → Nat
  | [], _ => 0
  | (k0, v) :: t, k => if k0 = k then v else lookupTotal t k

/-- Feed one segment into the running `team_scores` buckets. -/
def accumStep (roster : List (String × List Char)) (l : List (Option String × Nat))
    (seg : List Char) : List (Option String × Nat) :=
  match processScoreSegment roster seg with
  | none => l
  | some (k, v) => bump l k v

/-- The per-player buckets for one team and one event type after the whole
scorer summary string has been split, stripped and accumulated. -/
def teamEventTotals (roster : List (String × List Char)) (data : List Char) :
    List (Option String × Nat) :=
  ((splitEv data).map pyStrip).foldl (accumStep roster) []

/-- Sum of bucket values. -/
def sumSnd (l : List (Option String × Nat)) : Nat :=
  l.foldl (fun a p => a + p.2) 0

/-- The contribution summed into the team MatchStats record for this event
type (`scores_summary` iterates over every bucket, the `None` one
included). -/
def teamEventAggregate (roster : List (String × List Char)) (data : List Char) : Nat :=
  sumSnd (teamEventTotals roster data)

/-- The buckets that are emitted as per-player PlayerStats records (the
`None` bucket is skipped by `if player_id == None: continue`). -/
def emittedScorerTotals (roster : List (String × List Char)) (data : List Char) :
    List (Option String × Nat) :=
  (teamEventTotals roster data).filter (fun p => p.1.isSome)

/-- The loader fields of one match reference from the match-list row;
`none` marks a field the loader did not extract. -/
structure MatchRef where
  id : Option String
  home_team_id : Option String
  away_team_id : Option String
  ground_id : Option String
  match_type : Option String
  won : Option String
  date : Option String
deriving DecidableEq

/-- The guard of `match_list_parse` before the follow-up fetch:
`any(k not in match.keys() for k in ["id", "home_team_id", "away_team_id",
"match_type", "won", "date"])` negated. -/
def shouldFollow (m : MatchRef) : Bool :=
  m.id.isSome && m.home_team_id.isSome && m.away_team_id.isSome &&
  m.match_type.isSome && m.won.isSome && m.date.isSome

/-- Truthy bold text of the first data row containing `"No records"` after
stripping. -/
def rowBoldNoRecords (rows : List (Option (List Char))) : Bool :=
  match rows.headD none with
  | some msg => !msg.isEmpty && containsChars "No records".toList (pyStrip msg)
  | none => false

/-- The terminal-page test of `match_list_parse`: exactly one `tr.data1`
row whose bold text contains `"No records"`. -/
def isNoRecordsPage (rows : List (Option (List Char))) : Bool :=
  (rows.length == 1) && rowBoldNoRecords rows

/-- The category list after the possible `self.categories.remove(...)`. -/
def nextCats (cats : List Nat) (cat : Nat) (rows : List (Option (List Char))) : List Nat :=
  if isNoRecordsPage rows = true then cats.erase cat else cats

/-- One `match_list_parse` callback: returns the surviving category list,
the ids of match references followed to their match pages and the search
requests `(category, page)` issued for the next list page.  An empty
result models both `CloseSpider` and the `ValueError` of removing an
already-removed category: in either case no request is constructed. -/
def matchListStep (cats : List Nat) (cat page : Nat) (rows : List (Option (List Char)))
    (matchRefs : List MatchRef) : List Nat × List String × List (Nat × Nat) :=
  if isNoRecordsPage rows = true ∧ cat ∉ cats then (cats, [], [])
  else if nextCats cats cat rows = [] then (nextCats cats cat rows, [], [])
  else
    (nextCats cats cat rows,
     matchRefs.filterMap (fun m => if shouldFollow m = true then m.id else none),
     if cat ∈ nextCats cats cat rows then [(cat, page + 1)] else [])

/-- The entities the headline stage of `_match_iframe_parse` can yield, in
emission order; team and stats records carry the side index (0 home,
1 away). -/
inductive Entity where
  | venue : Entity
  | team : Nat → List Char → Entity
  | matchItem : Entity
  | matchStats : Nat → Nat → Nat → Entity
deriving DecidableEq

/-- Stage 1 of `_match_iframe_parse` (lines 480-535): the venue check runs
before the headline is split, each headline segment yields its Team before
the next segment is validated, and only a fully parsed two-segment
headline yields the Match and the two mirrored MatchStats partials.  The
boolean reports whether parsing continues to the later stages. -/
def stage1 (tokens notes : List (List Char)) : List Entity × Bool :=
  if tokens = [] then ([], false)
  else
    let ven : List Entity := if notes.length = 2 then [Entity.venue] else []
    match splitDash (joinTokens tokens) with
    | [h0, h1] =>
      let n0 := runsOf letterSpace h0
      let s0 := scoreRuns h0
      if n0 = [] ∨ s0 = [] then (ven, false)
      else
        let t0 := Entity.team 0 (pyStrip (n0.headD []))
        let sc0 := digitsVal (pyStrip (s0.headD []))
        let n1 := runsOf letterSpace h1
        let s1 := scoreRuns h1
        if n1 = [] ∨ s1 = [] then (ven ++ [t0], false)
        else
          let t1 := Entity.team 1 (pyStrip (n1.headD []))
          let sc1 := digitsVal (pyStrip (s1.headD []))
          (ven ++ [t0, t1, Entity.matchItem,
                   Entity.matchStats 0 sc0 sc1, Entity.matchStats 1 sc1 sc0], true)
    | _ => (ven, false)

example : pyStrip "  ab c  ".toList = "ab c".toList := by decide
example : splitSp "A  B".toList = ["A".toList, "".toList, "B".toList] := by decide
example : splitDash "England 1 - 0".toList = ["England 1".toList, "0".toList] := by decide
example : pyInt " 12 ".toList = some 12 := by decide
example : pyInt "abc".toList = none := by decide
example : pyInt "1_2".toList = some 12 := by decide
example : pyInt "1__2".toList = none := by decide
example : scoreRuns "12G3".toList = ["1".toList, "3".toList] := by decide
example : runsOf letterSpace "England 24".toList = ["England ".toList] := by decide
example : containsChars "No records".toList (pyStrip "  No records found".toList) = true := by decide
example : containsChars "No records".toList "12 rows".toList = false := by decide
example : resolveName "Smith".toList [("1", "Smith".toList)] = some "1" := by decide
example : resolveName "Qqq".toList [("1", "Smith".toList)] = none := by decide
example : resolveName "J Smith".toList
    [("1", "John Smith".toList), ("2", "Bob Smith".toList)] = some "1" := by decide
example : resolveName "Smith".toList
    [("1", "John Smith".toList), ("2", "Bob Smith".toList)] = none := by decide
example : pensFromParse "3 from 5".toList = some 5 := by decide
example : dropsParse "2 (1 missed)".toList = some (2, some 1) := by decide
example : dropsParse "2".toList = some (2, none) := by decide
example : nlFromParse "\n7 from 9".toList = some (7, 9) := by decide
example : wonLostParse "\n\t  4 won, 2 lost".toList = some (4, 2) := by decide
example : slashBothParse "10/15".toList = some (10, 15) := by decide
example : slashBothParse "10/15x".toList = none := by decide
example : slashStartParse "10/15x".toList = some (10, 15) := by decide
example : krpParse "1/2/3".toList = some (1, 2, 3) := by decide
example : triesAssistsParse "1/23".toList = some (1, 2) := by decide
example : parseEvent "Smith 3".toList = some ("Smith".toList, ['3'], []) := by decide
example : parseEvent "Jones (34, 67)".toList = some ("Jones ".toList, [], [34, 67]) := by decide
example : parseEvent "Smith 2".toList = some ("Smith".toList, ['2'], []) := by decide
example : parseEvent "(12)".toList = none := by decide
example : parseEvent "Jones (34".toList = some ("Jones ".toList, [], []) := by decide
example : parseEvent "Jones (3)(4)".toList = some ("Jones ".toList, [], [3, 4]) := by decide
example : splitEv "Smith 2, Jones (34, 67)".toList =
    ["Smith 2".toList, " Jones (34, 67)".toList] := by decide
example : teamEventTotals [("1", "Smith".toList), ("2", "Jones".toList)]
    "Smith 2, Jones (34, 67)".toList = [(some "1", 2), (some "2", 2)] := by decide
example : teamEventTotals [("1", "Smith".toList)] "Smith, Qqq 5".toList =
    [(some "1", 1), (none, 2)] := by decide
example : matchListStep [1, 3] 1 2 [some "No records found for this query".toList] [] =
    ([3], [], []) := by decide
example : matchListStep [1] 1 2 [some "No records found for this query".toList] [] =
    ([], [], []) := by decide
example : matchListStep [1, 3] 1 2 [none, none] [] = ([1, 3], [], [(1, 3)]) := by decide
example : stage1 ["England 24 - Wales 13".toList] [] =
    ([Entity.team 0 "England".toList, Entity.team 1 "Wales".toList, Entity.matchItem,
      Entity.matchStats 0 24 13, Entity.matchStats 1 13 24], true) := by decide
example : stage1 ["England 1 - 0".toList] ["A".toList, "B".toList] =
    ([Entity.venue, Entity.team 0 "England".toList], false) := by decide
example : parsePlayerStatsRow
    ⟨some "Smith".toList, some "1/2".toList, some "10".toList, none, none, none, none,
     none, none, some "7/3".toList, none, none, none⟩
    [("1", "Smith".toList)] [("2", "Jones".toList)] "H" "A" =
    Except.ok (some ("1", "H",
      [("tries", 1), ("assists", 2), ("points", 10), ("tackles_made", 7), ("tackles_missed", 3)]))
    := by rfl
example : parseMatchStatCell "Passes" "abc".toList = Except.error () := by rfl
example : parseMatchStatCell "Passes" "42".toList = Except.ok [("passes", 42)] := by rfl

theorem bump_lookupTotal (l : List (Option String × Nat)) (k : Option String) (v : Nat) :
    lookupTotal (bump l k v) k = lookupTotal l k + v := by
  induction l with
  | nil => simp [bump, lookupTotal]
  | cons p t ih =>
    obtain ⟨k0, v0⟩ := p
    by_cases hk : k0 = k <;> simp [bump, lookupTotal, hk, ih]

theorem foldl_add_shift (l : List (Option String × Nat)) :
    ∀ a : Nat, l.foldl (fun acc p => acc + p.2) a = a + l.foldl (fun acc p => acc + p.2) 0 := by
  induction l with
  | nil => intro a; simp
  | cons p t ih =>
    intro a
    rw [List.foldl_cons, List.foldl_cons, ih (a + p.2), ih (0 + p.2)]
    omega

theorem sumSnd_cons (p : Option String × Nat) (m : List (Option String × Nat)) :
    sumSnd (p :: m) = p.2 + sumSnd m := by
  simp only [sumSnd, List.foldl_cons]
  rw [foldl_add_shift]
  omega

theorem sumSnd_filter_split (l : List (Option String × Nat)) (q : Option String × Nat → Bool) :
    sumSnd l = sumSnd (l.filter q) + sumSnd (l.filter (fun x => !q x)) := by
  induction l with
  | nil => rfl
  | cons p t ih =>
    cases hq : q p <;> simp [List.filter_cons, hq, sumSnd_cons, ih] <;> omega

theorem nextCats_sublist (cats : List Nat) (cat : Nat) (rows : List (Option (List Char))) :
    List.Sublist (nextCats cats cat rows) cats := by
  unfold nextCats
  split
  · exact List.erase_sublist cat cats
  · exact List.Sublist.refl cats

theorem takeWhile_digits_append (a r : List Char) (ha : ∀ x ∈ a, Char.isDigit x = true)
    (hr : ∀ y rs, r = y :: rs → Char.isDigit y = false) :
    (a ++ r).takeWhile Char.isDigit = a ∧ (a ++ r).dropWhile Char.isDigit = r := by
  induction a with
  | nil =>
    cases r with
    | nil => simp
    | cons y rs => simp [List.takeWhile_cons, List.dropWhile_cons, hr y rs rfl]
  | cons x xs ih =>
    have hx := ha x (by simp)
    have hxs := ih (fun z hz => ha z (by simp [hz]))
    simp [List.takeWhile_cons, List.dropWhile_cons, hx, hxs.1, hxs.2]

theorem cellInt_ok_eq (c : Option (List Char)) (l : List (String × Int)) (k : String)
    (h : cellIntOk c = true) : ∃ l2, cellInt l k c = Except.ok l2 := by
  cases c with
  | none => exact ⟨l, rfl⟩
  | some v =>
    cases hv : pyInt v with
    | none => simp [cellIntOk, hv] at h
    | some n => exact ⟨l ++ [(k, n)], by simp [cellInt, hv]⟩

theorem buildPlayerCells_ok (row : PlayerRow) (h : intCellsOk row = true) :
    ∃ l, buildPlayerCells row = Except.ok l := by
  simp only [intCellsOk, Bool.and_eq_true] at h
  obtain ⟨⟨⟨⟨⟨⟨h1, h2⟩, h3⟩, h4⟩, h5⟩, h6⟩, h7⟩ := h
  obtain ⟨s2, e2⟩ := cellInt_ok_eq row.points (cellRegex [] row.triesAssists statPairsOfTA)
    "points" h1
  obtain ⟨s4, e4⟩ := cellInt_ok_eq row.meters (cellRegex s2 row.krp statPairsOfKRP) "meters" h2
  obtain ⟨s5, e5⟩ := cellInt_ok_eq row.breaks s4 "breaks" h3
  obtain ⟨s6, e6⟩ := cellInt_ok_eq row.defBeaten s5 "def_beaten" h4
  obtain ⟨s7, e7⟩ := cellInt_ok_eq row.offloads s6 "offloads" h5
  obtain ⟨s8, e8⟩ := cellInt_ok_eq row.turnovers s7 "turnovers" h6
  obtain ⟨s11, e11⟩ := cellInt_ok_eq row.pensConceded
    (cellRegex (cellRegex s8 row.tackles statPairsOfTackles) row.lineouts statPairsOfLineouts)
    "pens_conceded" h7
  refine ⟨cellRegex s11 row.cards statPairsOfCards, ?_⟩
  simp only [buildPlayerCells, e2, e4, e5, e6, e7, e8, e11]

/-- Claim C6: parsing the cell "3 from 5" under "Penalty goals" yields
pens_attempt = 5, "2 (1 missed)" under "Dropped goals" yields
drops_attempt = 3, and "10/15" under "Tackles made/missed" yields
tackles_made = 10 and tackles_missed = 15. -/
theorem stat_cell_examples :
    parseMatchStatCell "Penalty goals" "3 from 5".toList = Except.ok [("pens_attempt", 5)] ∧
    parseMatchStatCell "Dropped goals" "2 (1 missed)".toList = Except.ok [("drops_attempt", 3)] ∧
    parseMatchStatCell "Tackles made/missed" "10/15".toList =
      Except.ok [("tackles_made", 10), ("tackles_missed", 15)] :=
  ⟨rfl, rfl, rfl⟩

/-- Claim C9 counterexample: the tries/assists cell "1/23" parses with
assists = 2, not assists = 23, because the repeated single-digit capture
group is read through its first capture. -/
theorem tries_assists_multidigit_counterexample :
    triesAssistsParse "1/23".toList = some (1, 2) ∧
    triesAssistsParse "1/23".toList ≠ some (1, 23) :=
  ⟨by decide, by decide⟩

/-- Claim C9 (amended): for digit strings A and B, parsing "A/B" yields
tries = A and assists = the first digit of B. -/
theorem tries_assists_first_digit (a : List Char) (c : Char) (b : List Char)
    (hne : a ≠ []) (ha : ∀ x ∈ a, x.isDigit = true) (hc : c.isDigit = true)
    (hb : ∀ x ∈ b, x.isDigit = true) :
    triesAssistsParse (a ++ '/' :: c :: b) = some (digitsVal a, digitVal c) := by
  have hslash : ∀ y rs, ('/' :: c :: b : List Char) = y :: rs → Char.isDigit y = false := by
    intro y rs h
    injection h with h1 _
    rw [← h1]
    decide
  have hsp := takeWhile_digits_append a ('/' :: c :: b) ha hslash
  have hall : (c :: b).all Char.isDigit = true := by
    simp only [List.all_eq_true]
    intro x hx
    rcases List.mem_cons.mp hx with h | h
    · rw [h]; exact hc
    · exact hb x h
  simp [triesAssistsParse, hsp.1, hsp.2, hne, hall]

/-- Claim C9 witness: a concrete application at "1/234". -/
theorem tries_assists_first_digit_witness :
    triesAssistsParse ("1".toList ++ '/' :: '2' :: "34".toList) =
      some (digitsVal "1".toList, digitVal '2') :=
  tries_assists_first_digit "1".toList '2' "34".toList (by decide) (by decide) (by decide)
    (by decide)

/-- Claim C4 counterexample: a match reference with every checked field but
no ground_id passes the guard and its follow-up fetch is issued. -/
theorem follow_without_ground_id_counterexample :
    shouldFollow ⟨some "530", some "1", some "2", none, some "1", some "won by 10",
      some "1 Jan 2000"⟩ = true ∧
    (⟨some "530", some "1", some "2", none, some "1", some "won by 10",
      some "1 Jan 2000"⟩ : MatchRef).ground_id = none ∧
    (matchListStep [1, 3] 1 1 [none, none]
      [⟨some "530", some "1", some "2", none, some "1", some "won by 10",
        some "1 Jan 2000"⟩]).2.1 = ["530"] :=
  ⟨rfl, rfl, by decide⟩

/-- Claim C4 (amended): the follow-up fetch guard checks exactly the fields
id, home_team_id, away_team_id, match_type, won and date; ground_id is not
required. -/
theorem follow_field_requirements (m : MatchRef) :
    shouldFollow m = true ↔
      (m.id.isSome = true ∧ m.home_team_id.isSome = true ∧ m.away_team_id.isSome = true ∧
       m.match_type.isSome = true ∧ m.won.isSome = true ∧ m.date.isSome = true) := by
  simp [shouldFollow, Bool.and_eq_true, and_assoc]

/-- Claim C5 counterexample: the "Passes" row, a simple integer cell,
raises (error) on a non-numeric value instead of yielding no data. -/
theorem passes_cell_exception_counterexample :
    parseMatchStatCell "Passes" "abc".toList = Except.error () := rfl

/-- Claim C5 (amended): every regex-guarded match-stats cell returns
normally on every input, but the nine simple integer cells raise exactly
when `int(value)` fails. -/
theorem match_stat_cell_error_behaviour (title : String) (value : List Char) :
    (title ∉ simpleStatTitles → ∃ r, parseMatchStatCell title value = Except.ok r) ∧
    (title ∈ simpleStatTitles →
      (parseMatchStatCell title value = Except.error () ↔ pyInt value = none)) := by
  constructor
  · intro h
    unfold parseMatchStatCell
    split <;> first
      | exact ⟨_, rfl⟩
      | (exfalso; apply h; simp_all [simpleStatTitles])
  · intro h
    simp only [simpleStatTitles, List.mem_cons, List.not_mem_nil, or_false] at h
    rcases h with h | h | h | h | h | h | h | h | h <;> subst h <;>
      (cases hv : pyInt value <;> simp [parseMatchStatCell, simpleCell, hv])

/-- Claim C5 witness: concrete applications of both parts. -/
theorem match_stat_cell_error_behaviour_witness :
    (∃ r, parseMatchStatCell "Tackles made/missed" "abc".toList = Except.ok r) ∧
    (parseMatchStatCell "Passes" "7".toList = Except.error () ↔ pyInt "7".toList = none) :=
  ⟨(match_stat_cell_error_behaviour "Tackles made/missed" "abc".toList).1 (by decide),
   (match_stat_cell_error_behaviour "Passes" "7".toList).2 (by decide)⟩

/-- Claim C1 counterexample: the segment "Smith 3" resolves to player "1"
and increases the running total by 2, not by max(3, 0) = 3: the source uses
the number of digit captures plus one, not the value of the bare count. -/
theorem scorer_bare_count_three_counterexample :
    lookupTotal (accumStep [("1", "Smith".toList)] [] "Smith 3".toList) (some "1") = 2 ∧
    (2 : Nat) ≠ max 3 0 :=
  ⟨by decide, by decide⟩

/-- Claim C1 (amended): a scorer segment that parses with occurrence digit
captures `occ` and minute markers `times`, and whose name resolves to a
player, increases that player's running total by exactly
max(occ.length + 1, times.length). -/
theorem scorer_segment_increment (roster : List (String × List Char))
    (l : List (Option String × Nat)) (seg nm : List Char) (occ : List Char) (times : List Nat)
    (pid : String) (hp : parseEvent seg = some (nm, occ, times))
    (hr : resolveName (pyStrip nm) roster = some pid) :
    lookupTotal (accumStep roster l seg) (some pid) =
      lookupTotal l (some pid) + max (occ.length + 1) times.length := by
  simp [accumStep, processScoreSegment, hp, hr, bump_lookupTotal]

/-- Claim C1 witness: a concrete application at "Smith 3". -/
theorem scorer_segment_increment_witness :
    lookupTotal (accumStep [("1", "Smith".toList)] [] "Smith 3".toList) (some "1") =
      lookupTotal [] (some "1") + max (['3'].length + 1) ([] : List Nat).length :=
  scorer_segment_increment [("1", "Smith".toList)] [] "Smith 3".toList "Smith".toList ['3'] []
    "1" (by decide) (by decide)

/-- Claim C2 counterexample: with roster {"1": "Smith"} the summary
"Smith, Qqq 5" has an unresolved segment; the team aggregate is 3 while
the per-player totals of resolved players sum to 1, so the aggregate does
not equal the sum over resolved players only. -/
theorem unresolved_scorer_aggregate_counterexample :
    teamEventAggregate [("1", "Smith".toList)] "Smith, Qqq 5".toList = 3 ∧
    sumSnd (emittedScorerTotals [("1", "Smith".toList)] "Smith, Qqq 5".toList) = 1 ∧
    (3 : Nat) ≠ 1 :=
  ⟨by decide, by decide, by decide⟩

/-- Claim C2 (amended): unresolved segments contribute nothing to the
emitted per-player totals (every emitted bucket has a resolved id), but
the team aggregate equals the resolved players' sum plus the unresolved
`None` bucket. -/
theorem scorer_totals_split (roster : List (String × List Char)) (data : List Char) :
    teamEventAggregate roster data =
      sumSnd (emittedScorerTotals roster data) +
      sumSnd ((teamEventTotals roster data).filter (fun p => !p.1.isSome)) ∧
    ∀ p ∈ emittedScorerTotals roster data, p.1.isSome = true := by
  constructor
  · exact sumSnd_filter_split (teamEventTotals roster data) (fun p => p.1.isSome)
  · intro p hp
    exact (List.mem_filter.mp hp).2

/-- Claim C2 witness: a concrete application, including the membership
part at the resolved bucket of "Smith". -/
theorem scorer_totals_split_witness :
    teamEventAggregate [("1", "Smith".toList)] "Smith".toList =
      sumSnd (emittedScorerTotals [("1", "Smith".toList)] "Smith".toList) +
      sumSnd ((teamEventTotals [("1", "Smith".toList)] "Smith".toList).filter
        (fun p => !p.1.isSome)) ∧
    ((some "1", 1) : Option String × Nat).1.isSome = true :=
  ⟨(scorer_totals_split [("1", "Smith".toList)] "Smith".toList).1,
   (scorer_totals_split [("1", "Smith".toList)] "Smith".toList).2 (some "1", 1) (by decide)⟩

/-- Claim C7: one match-list callback only shrinks the category list, only
requests the page after the one answered, for a category still active, and
an empty category list yields no search request at all. -/
theorem crawl_step_monotone (cats : List Nat) (cat page : Nat)
    (rows : List (Option (List Char))) (matchRefs : List MatchRef) :
    List.Sublist (matchListStep cats cat page rows matchRefs).1 cats ∧
    (∀ q ∈ (matchListStep cats cat page rows matchRefs).2.2,
      q.1 ∈ (matchListStep cats cat page rows matchRefs).1 ∧ q.2 = page + 1) ∧
    (cats = [] → (matchListStep cats cat page rows matchRefs).2.2 = []) := by
  unfold matchListStep
  split
  · exact ⟨List.Sublist.refl cats, by simp, fun _ => rfl⟩
  · split
    · exact ⟨nextCats_sublist cats cat rows, by simp, fun _ => rfl⟩
    · rename_i hne
      refine ⟨nextCats_sublist cats cat rows, ?_, ?_⟩
      · intro q hq
        simp only at hq
        split at hq
        · rename_i hmem
          simp only [List.mem_singleton] at hq
          subst hq
          exact ⟨hmem, rfl⟩
        · simp at hq
      · intro hcats
        exfalso
        apply hne
        subst hcats
        unfold nextCats
        split <;> rfl

/-- Claim C7 witness: concrete applications covering a surviving category
request and the empty terminal state. -/
theorem crawl_step_monotone_witness :
    (((1 : Nat), (3 : Nat)).1 ∈ (matchListStep [1, 3] 1 2 [none] []).1 ∧
      ((1 : Nat), (3 : Nat)).2 = 2 + 1) ∧
    (matchListStep [] 1 2 [] []).2.2 = [] :=
  ⟨(crawl_step_monotone [1, 3] 1 2 [none] []).2.1 (1, 3) (by decide),
   (crawl_step_monotone [] 1 2 [] []).2.2 rfl⟩

/-- Claim C10: the category is removed only by a page with exactly one data
row whose bold text contains "No records"; any other page leaves the
category list unchanged and, when the answered category is still active,
issues the next-page request. -/
theorem no_records_removal_condition (cats : List Nat) (cat page : Nat)
    (rows : List (Option (List Char))) (matchRefs : List MatchRef) :
    (¬ (rows.length = 1 ∧ rowBoldNoRecords rows = true) →
      (matchListStep cats cat page rows matchRefs).1 = cats ∧
      (cat ∈ cats → (matchListStep cats cat page rows matchRefs).2.2 = [(cat, page + 1)])) ∧
    ((rows.length = 1 ∧ rowBoldNoRecords rows = true) → cat ∈ cats →
      (matchListStep cats cat page rows matchRefs).1 = cats.erase cat) := by
  have hiff : isNoRecordsPage rows = true ↔ (rows.length = 1 ∧ rowBoldNoRecords rows = true) := by
    simp [isNoRecordsPage, Bool.and_eq_true, beq_iff_eq]
  constructor
  · intro h
    have hn : isNoRecordsPage rows = false := by
      cases hx : isNoRecordsPage rows
      · rfl
      · exact absurd (hiff.mp hx) h
    have hnc : nextCats cats cat rows = cats := by simp [nextCats, hn]
    constructor
    · simp only [matchListStep, hn, hnc, Bool.false_eq_true, false_and, if_false]
      split <;> rfl
    · intro hm
      have hcne : cats ≠ [] := by
        rintro rfl
        exact absurd hm (List.not_mem_nil cat)
      simp [matchListStep, hn, hnc, hcne, hm]
  · intro h hm
    have ht : isNoRecordsPage rows = true := hiff.mpr h
    have hfirst : ¬ (isNoRecordsPage rows = true ∧ cat ∉ cats) := by
      rintro ⟨_, hno⟩
      exact hno hm
    have hnc : nextCats cats cat rows = cats.erase cat := by simp [nextCats, ht]
    simp only [matchListStep, hnc]
    rw [if_neg hfirst]
    split <;> rfl

/-- Claim C10 witness: a "No records" row beside another data row leaves
both categories active and pagination continues; the same row alone
removes only the answered category. -/
theorem no_records_removal_condition_witness :
    ((matchListStep [1, 3] 3 4 [some "No records found for this query".toList, some "X".toList]
        []).1 = [1, 3] ∧
      (matchListStep [1, 3] 3 4 [some "No records found for this query".toList, some "X".toList]
        []).2.2 = [(3, 4 + 1)]) ∧
    (matchListStep [1, 3] 3 4 [some "No records found for this query".toList] []).1 =
      [1, 3].erase 3 :=
  ⟨⟨((no_records_removal_condition [1, 3] 3 4
        [some "No records found for this query".toList, some "X".toList] []).1 (by decide)).1,
    ((no_records_removal_condition [1, 3] 3 4
        [some "No records found for this query".toList, some "X".toList] []).1 (by decide)).2
      (by decide)⟩,
   (no_records_removal_condition [1, 3] 3 4
      [some "No records found for this query".toList] []).2 (by decide) (by decide)⟩

/-- Claim C3 counterexample: a headline whose second segment has no name
still emits the Venue (two notes present) and the first Team, so a failed
headline does not always leave the match without entities. -/
theorem headline_partial_emission_counterexample :
    (stage1 ["England 1 - 0".toList] ["A".toList, "B".toList]).1 =
      [Entity.venue, Entity.team 0 "England".toList] ∧
    (stage1 ["England 1 - 0".toList] ["A".toList, "B".toList]).1 ≠ [] :=
  ⟨by decide, by decide⟩

/-- Claim C3 (amended): when the headline stage does not yield the Match
record, no MatchStats record is emitted either and everything emitted is a
Venue or a Team; only when the headline text nodes are absent is nothing
emitted at all. -/
theorem headline_failure_no_match_entities (tokens notes : List (List Char))
    (hno : Entity.matchItem ∉ (stage1 tokens notes).1) :
    (∀ i s c, Entity.matchStats i s c ∉ (stage1 tokens notes).1) ∧
    (∀ e ∈ (stage1 tokens notes).1, e = Entity.venue ∨ ∃ i n, e = Entity.team i n) ∧
    (tokens = [] → (stage1 tokens notes).1 = []) := by
  by_cases h0 : tokens = []
  · subst h0
    simp [stage1]
  · have hven : ∀ e ∈ (if notes.length = 2 then [Entity.venue] else ([] : List Entity)),
        e = Entity.venue := by
      intro e he
      split at he <;> simp_all
    have hvenStats : ∀ i s c, Entity.matchStats i s c ∉
        (if notes.length = 2 then [Entity.venue] else ([] : List Entity)) := by
      intro i s c hm
      exact absurd (hven _ hm) (by simp)
    rcases hsd : splitDash (joinTokens tokens) with _ | ⟨a, _ | ⟨b, _ | ⟨c, tl⟩⟩⟩
    · refine ⟨?_, ?_, fun h => absurd h h0⟩
      · intro i s cc
        simp only [stage1, h0, hsd, if_neg h0]
        exact hvenStats i s cc
      · intro e he
        simp only [stage1, h0, hsd, if_neg h0] at he
        exact Or.inl (hven e he)
    · refine ⟨?_, ?_, fun h => absurd h h0⟩
      · intro i s cc
        simp only [stage1, h0, hsd, if_neg h0]
        exact hvenStats i s cc
      · intro e he
        simp only [stage1, h0, hsd, if_neg h0] at he
        exact Or.inl (hven e he)
    · by_cases hA : runsOf letterSpace a = [] ∨ scoreRuns a = []
      · refine ⟨?_, ?_, fun h => absurd h h0⟩
        · intro i s cc
          simp only [stage1, h0, hsd, if_neg h0, if_pos hA]
          exact hvenStats i s cc
        · intro e he
          simp only [stage1, h0, hsd, if_neg h0, if_pos hA] at he
          exact Or.inl (hven e he)
      · by_cases hB : runsOf letterSpace b = [] ∨ scoreRuns b = []
        · refine ⟨?_, ?_, fun h => absurd h h0⟩
          · intro i s cc
            simp only [stage1, h0, hsd, if_neg h0, if_neg hA, if_pos hB]
            intro hm
            rcases List.mem_append.mp hm with h | h
            · exact hvenStats i s cc h
            · simp at h
          · intro e he
            simp only [stage1, h0, hsd, if_neg h0, if_neg hA, if_pos hB] at he
            rcases List.mem_append.mp he with h | h
            · exact Or.inl (hven e h)
            · simp only [List.mem_singleton] at h
              exact Or.inr ⟨0, _, h⟩
        · exfalso
          apply hno
          simp [stage1, h0, hsd, if_neg h0, if_neg hA, if_neg hB]
    · refine ⟨?_, ?_, fun h => absurd h h0⟩
      · intro i s cc
        simp only [stage1, h0, hsd, if_neg h0]
        exact hvenStats i s cc
      · intro e he
        simp only [stage1, h0, hsd, if_neg h0] at he
        exact Or.inl (hven e he)

/-- Claim C3 witness: a concrete application at a one-segment headline. -/
theorem headline_failure_no_match_entities_witness :
    Entity.matchStats 0 1 2 ∉ (stage1 ["x".toList] []).1 :=
  (headline_failure_no_match_entities ["x".toList] [] (by decide)).1 0 1 2

/-- Claim C8 counterexample: a row whose name resolves in exactly one
roster but whose points cell is non-numeric raises instead of yielding a
record, so a record is not produced whenever exactly one resolution
succeeds. -/
theorem player_row_exception_counterexample :
    truthy (resolveName "Smith".toList [("1", "Smith".toList)]) = true ∧
    truthy (resolveName "Smith".toList ([] : List (String × List Char))) = false ∧
    parsePlayerStatsRow
      ⟨some "Smith".toList, none, some "x".toList, none, none, none, none, none, none,
       none, none, none, none⟩
      [("1", "Smith".toList)] [] "H" "A" = Except.error () :=
  ⟨by decide, by decide, rfl⟩

/-- Claim C8 (amended): a detail-tab row with a name cell is discarded
(with no record and no exception) when both or neither single-team
resolution succeeds; a record is produced only when exactly one succeeds,
and is produced whenever exactly one succeeds and every simple integer
cell of the row converts. -/
theorem player_row_attribution (row : PlayerRow) (home away : List (String × List Char))
    (hI aI : String) (nm : List Char) (hname : row.name = some nm) :
    (((truthy (resolveName nm home) = true ∧ truthy (resolveName nm away) = true) ∨
      (truthy (resolveName nm home) = false ∧ truthy (resolveName nm away) = false)) →
      parsePlayerStatsRow row home away hI aI = Except.ok none) ∧
    (∀ p, parsePlayerStatsRow row home away hI aI = Except.ok (some p) →
      (truthy (resolveName nm home) = true ↔ truthy (resolveName nm away) = false)) ∧
    ((truthy (resolveName nm home) = true ↔ truthy (resolveName nm away) = false) →
      intCellsOk row = true →
      ∃ p, parsePlayerStatsRow row home away hI aI = Except.ok (some p)) := by
  cases hh : truthy (resolveName nm home) <;> cases ha : truthy (resolveName nm away)
  · -- neither resolves: discarded
    refine ⟨?_, ?_, ?_⟩
    · intro _
      simp [parsePlayerStatsRow, hname, hh, ha]
    · intro p hp
      simp [parsePlayerStatsRow, hname, hh, ha] at hp
    · intro hx _
      exact absurd (hx.mpr rfl) (by simp [hh])
  · -- away only: record unless a cell raises
    refine ⟨?_, ?_, ?_⟩
    · rintro (⟨h1, _⟩ | ⟨_, h2⟩)
      · exact absurd h1 (by simp [hh])
      · exact absurd h2 (by simp [ha])
    · intro p _
      constructor
      · intro h1
        exact absurd h1 (by simp [hh])
      · intro h2
        exact absurd h2 (by simp [ha])
    · intro _ hcells
      obtain ⟨l, hl⟩ := buildPlayerCells_ok row hcells
      refine ⟨((resolveName nm away).getD "", aI, l), ?_⟩
      simp [parsePlayerStatsRow, hname, hh, ha, hl]
  · -- home only: record unless a cell raises
    refine ⟨?_, ?_, ?_⟩
    · rintro (⟨_, h2⟩ | ⟨h1, _⟩)
      · exact absurd h2 (by simp [ha])
      · exact absurd h1 (by simp [hh])
    · intro p _
      exact ⟨fun _ => rfl, fun _ => rfl⟩
    · intro _ hcells
      obtain ⟨l, hl⟩ := buildPlayerCells_ok row hcells
      refine ⟨((resolveName nm home).getD "", hI, l), ?_⟩
      simp [parsePlayerStatsRow, hname, hh, ha, hl]
  · -- both resolve: discarded
    refine ⟨?_, ?_, ?_⟩
    · intro _
      simp [parsePlayerStatsRow, hname, hh, ha]
    · intro p hp
      simp [parsePlayerStatsRow, hname, hh, ha] at hp
    · intro hx _
      exact absurd (hx.mp rfl) (by decide)

/-- Claim C8 witness: a name found in both rosters is discarded without a
record; a name found only in the home roster with no statistic cells
yields a record. -/
theorem player_row_attribution_witness :
    parsePlayerStatsRow
      ⟨some "Smith".toList, none, none, none, none, none, none, none, none, none, none,
       none, none⟩
      [("1", "Smith".toList)] [("2", "Smith".toList)] "H" "A" = Except.ok none ∧
    ∃ p, parsePlayerStatsRow
      ⟨some "Smith".toList, none, none, none, none, none, none, none, none, none, none,
       none, none⟩
      [("1", "Smith".toList)] [] "H" "A" = Except.ok (some p) :=
  ⟨(player_row_attribution
      ⟨some "Smith".toList, none, none, none, none, none, none, none, none, none, none,
       none, none⟩
      [("1", "Smith".toList)] [("2", "Smith".toList)] "H" "A" "Smith".toList rfl).1
      (Or.inl ⟨by decide, by decide⟩),
   (player_row_attribution
      ⟨some "Smith".toList, none, none, none, none, none, none, none, none, none, none,
       none, none⟩
      [("1", "Smith".toList)] [] "H" "A" "Smith".toList rfl).2.2 (by decide) (by decide)⟩

